import Mathlib

/-!
Shallow embedding of the Stage2 layout optimizer
(`src/optimize_stage2.py`).

Numbers: the Python program computes with IEEE doubles; every value it
manipulates (parameter vectors, platform coordinates, scores) is modelled
here with exact arithmetic.  Parameter vectors and platform coordinates are
rationals (the decoder only shuffles, adds and compares them), while the
physics formulas, which take a real square root, live in `ℝ`.

Exceptions are modelled with `Option`: `create_platform_sequence` returns
`none` exactly where the Python function raises (NumPy's `reshape(3, 4)`
fails unless it is handed exactly 12 values, i.e. unless the parameter
vector has length 24).
-/

namespace Stage2

/-- Game physics constant `GRAVITY = 0.6`. -/
noncomputable def GRAVITY : ℝ := 0.6

/-- Game physics constant `JUMP_FORCE = -12`. -/
noncomputable def JUMP_FORCE : ℝ := -12

/-- Game physics constant `MOVE_SPEED = 4`. -/
noncomputable def MOVE_SPEED : ℝ := 4

/-- Game physics constant `GAME_SPEED = 2.0`. -/
noncomputable def GAME_SPEED : ℝ := 2.0

/-- Derived constant `MAX_JUMP_HEIGHT = JUMP_FORCE ** 2 / (2 * GRAVITY)`. -/
noncomputable def MAX_JUMP_HEIGHT : ℝ := JUMP_FORCE ^ 2 / (2 * GRAVITY)

/-- Derived constant
`MAX_JUMP_DISTANCE = 2 * abs(JUMP_FORCE) * MOVE_SPEED * GAME_SPEED / GRAVITY`. -/
noncomputable def MAX_JUMP_DISTANCE : ℝ :=
  2 * |JUMP_FORCE| * MOVE_SPEED * GAME_SPEED / GRAVITY

/-- Derived constant `SAFE_JUMP_DISTANCE = MAX_JUMP_DISTANCE * 0.7`. -/
noncomputable def SAFE_JUMP_DISTANCE : ℝ := MAX_JUMP_DISTANCE * 0.7

/-- A static platform record `{"x1": _, "y1": _, "x2": _, "y2": _}`. -/
structure Platform where
  x1 : ℚ
  y1 : ℚ
  x2 : ℚ
  y2 : ℚ
deriving DecidableEq

/-- A moving platform record
`{"x1": _, "y1": _, "x2": _, "y2": _, "startX": _, "endX": _, "speed": _, "direction": _}`. -/
structure MovingPlatform where
  x1 : ℚ
  y1 : ℚ
  x2 : ℚ
  y2 : ℚ
  startX : ℚ
  endX : ℚ
  speed : ℚ
  direction : ℤ
deriving DecidableEq

/-- The four geometric fields of a moving-platform record; the clearability
pass reads only `x2` and `y1` of each element of `platforms + moving_platforms`,
which both record kinds carry. -/
def MovingPlatform.toPlatform (m : MovingPlatform) : Platform :=
  ⟨m.x1, m.y1, m.x2, m.y2⟩

/-- Field `self.long_transport_min = 400` set in `Stage2Optimizer.__init__`. -/
def long_transport_min : ℚ := 400

/-- Embedding of `Stage2Optimizer.calculate_jump_distance`:
`horizontal = abs(x2 - x1)`, `vertical = max(0, y2 - y1)`; when `vertical > 0`
the result is `horizontal / sqrt(2 * vertical / GRAVITY)` (the Python code
writes the ternary `sqrt(..) if vertical > 0 else 1` inside the branch),
otherwise `horizontal`. -/
noncomputable def calculate_jump_distance (x1 y1 x2 y2 : ℝ) : ℝ :=
  let horizontal := |x2 - x1|
  let vertical := max 0 (y2 - y1)
  if vertical > 0 then
    let time_factor := if vertical > 0 then Real.sqrt (2 * vertical / GRAVITY) else 1
    horizontal / time_factor
  else horizontal

/-- The fixed start platform appended first by `create_platform_sequence`:
`{"x1": -500, "y1": 500, "x2": 300, "y2": 500}`. -/
def startPlatform : Platform := ⟨-500, 500, 300, 500⟩

/-- NumPy's `reshape(-1, 4)` step: split a flat list into rows of four;
`none` when the length is not a multiple of four. -/
def reshape4 : List ℚ → Option (List (ℚ × ℚ × ℚ × ℚ))
  | [] => some []
  | a :: b :: c :: d :: rest => (reshape4 rest).map (fun rows => (a, b, c, d) :: rows)
  | _ => none

/-- Build one moving-platform record from a config row `(x_start, x_end, y, speed)`
with `width = 80`, exactly as the loop body of `create_platform_sequence`. -/
def movingOfConfig (c : ℚ × ℚ × ℚ × ℚ) : MovingPlatform :=
  { x1 := c.1, y1 := c.2.2.1, x2 := c.1 + 80, y2 := c.2.2.1
    startX := c.1, endX := c.2.1, speed := c.2.2.2, direction := 1 }

/-- Embedding of `Stage2Optimizer.create_platform_sequence` with `n_platforms = 6`,
`n_moving = 3`.  The start platform is emitted first; `x_positions = params[:6]`
and `y_positions = params[6:12]` are sorted under one permutation (NumPy's
`argsort` on the x-positions, modelled by sorting the zipped pairs on the
first component) and each sorted pair becomes a static platform of width 100;
`params[12:].reshape(3, 4)` yields the moving-platform configs.  The reshape
raises — `none` here — unless `params[12:]` holds exactly 12 values, i.e.
unless the vector has length 24. -/
def create_platform_sequence (params : List ℚ) :
    Option (List Platform × List MovingPlatform) :=
  let x_positions := params.take 6
  let y_positions := (params.drop 6).take 6
  let sortedPairs := (x_positions.zip y_positions).mergeSort
    (fun a b => decide (a.1 ≤ b.1))
  let platforms := startPlatform ::
    sortedPairs.map (fun p => Platform.mk p.1 p.2 (p.1 + 100) p.2)
  match reshape4 (params.drop 12) with
  | some rows =>
      if rows.length = 3 then some (platforms, rows.map movingOfConfig) else none
  | none => none

/-- The contribution of one adjacent pair in
`calculate_clearability_score`: `+100` when the required jump distance is
within `SAFE_JUMP_DISTANCE`, else `+50` when within `MAX_JUMP_DISTANCE`,
else `-200`. -/
noncomputable def pairContribution (p1 p2 : Platform) : ℝ :=
  if calculate_jump_distance p1.x2 p1.y1 p2.x1 p2.y1 ≤ SAFE_JUMP_DISTANCE then 100
  else if calculate_jump_distance p1.x2 p1.y1 p2.x1 p2.y1 ≤ MAX_JUMP_DISTANCE then 50
  else -200

/-- The loop of `calculate_clearability_score`:
`for i in range(len(all_platforms) - 1)` accumulating the contribution of
`(all_platforms[i], all_platforms[i+1])`. -/
noncomputable def clearabilityLoop : List Platform → ℝ
  | [] => 0
  | [_] => 0
  | p1 :: p2 :: rest => pairContribution p1 p2 + clearabilityLoop (p2 :: rest)

/-- Embedding of `Stage2Optimizer.calculate_clearability_score` on
`all_platforms = platforms + moving_platforms`. -/
noncomputable def calculate_clearability_score (platforms : List Platform)
    (moving_platforms : List MovingPlatform) : ℝ :=
  clearabilityLoop (platforms ++ moving_platforms.map MovingPlatform.toPlatform)

/-- Embedding of `Stage2Optimizer.calculate_educational_score`: per moving platform,
`+100` when `abs(endX - startX) ≥ long_transport_min` and `+50` when
`0.5 ≤ speed ≤ 1.5`, summed over the list. -/
def calculate_educational_score (moving_platforms : List MovingPlatform) : ℚ :=
  moving_platforms.foldl
    (fun score platform =>
      let travel_distance := |platform.endX - platform.startX|
      let score := if travel_distance ≥ long_transport_min then score + 100 else score
      if 0.5 ≤ platform.speed ∧ platform.speed ≤ 1.5 then score + 50 else score)
    0

/-- Embedding of `np.var`: population variance, the mean of the squared deviations from
the mean (on the empty list the Python call returns NaN; it is never reached
with an empty list by this program). -/
def np_var (l : List ℚ) : ℚ :=
  let m := l.sum / l.length
  (l.map (fun x => (x - m) ^ 2)).sum / l.length

/-- Embedding of `Stage2Optimizer.calculate_variety_score`:
`min(var(y-positions of platforms + moving_platforms) / 100, 50)`
plus `min(var(speeds of moving_platforms) * 100, 30)`. -/
def calculate_variety_score (platforms : List Platform)
    (moving_platforms : List MovingPlatform) : ℚ :=
  let y_positions := platforms.map Platform.y1 ++ moving_platforms.map MovingPlatform.y1
  let y_variance := np_var y_positions
  let speeds := moving_platforms.map MovingPlatform.speed
  let speed_variance := np_var speeds
  min (y_variance / 100) 50 + min (speed_variance * 100) 30

/-- Embedding of `Stage2Optimizer.objective_function`: decode, score, combine as
`0.5 * clearability + 0.3 * educational + 0.2 * variety` and negate; the
`except` clause turns any failure into the penalty `1000`. -/
noncomputable def objective_function (params : List ℚ) : ℝ :=
  match create_platform_sequence params with
  | some (platforms, moving_platforms) =>
      let clearability_score := calculate_clearability_score platforms moving_platforms
      let educational_score : ℝ := (calculate_educational_score moving_platforms : ℚ)
      let variety_score : ℝ := (calculate_variety_score platforms moving_platforms : ℚ)
      let total_score : ℝ :=
        0.5 * clearability_score + 0.3 * educational_score + 0.2 * variety_score
      (-total_score)
  | none => 1000

/-- Specification-side reading of the clearability score: the sum, over each
adjacent pair `(p1, p2)` of a list taken exactly in list order, of the pair
contribution (+100 / +50 / -200 against the jump-distance thresholds). -/
noncomputable def clearabilitySum (l : List Platform) : ℝ :=
  ((l.zip l.tail).map (fun pr => pairContribution pr.1 pr.2)).sum

/-- What `scipy.optimize.minimize` hands back and `optimize` reads: the final
parameter vector `x`, the final objective value (`result.fun` in Python —
`fun` is reserved in Lean, hence `fval`), the success flag, and the solver's
diagnostic message. -/
structure MinimizeResult where
  x : List ℚ
  fval : ℝ
  success : Bool
  message : String

/-- The record `Stage2Optimizer.optimize` returns.  The Python function
returns a dict whose keys differ between the branches; a key that a branch
omits is `none` here. -/
structure OptimizationResult where
  success : Bool
  platforms : Option (List Platform)
  moving_platforms : Option (List MovingPlatform)
  score : Option ℝ
  message : String

/-- The tail of `Stage2Optimizer.optimize` after the external `minimize`
call, which is modelled by the argument.  On solver success the result dict
carries the decoded platforms, `-result.fun` as the score and a success
message; on solver failure it carries only the flag and the diagnostic
message.  A decode error in the success branch would propagate out of
`optimize` (`none` here). -/
noncomputable def optimize (result : MinimizeResult) : Option OptimizationResult :=
  if result.success then
    match create_platform_sequence result.x with
    | some (platforms, moving_platforms) =>
        some { success := true, platforms := some platforms,
               moving_platforms := some moving_platforms,
               score := some (-result.fval),
               message := "Optimization successful" }
    | none => none
  else
    some { success := false, platforms := none, moving_platforms := none,
           score := none,
           message := "Optimization failed: " ++ result.message }

/-! ### Helper lemmas -/

/-- A successful `reshape4` consumed a list of length four times the number
of rows. -/
theorem reshape4_length :
    ∀ (l : List ℚ) (rows : List (ℚ × ℚ × ℚ × ℚ)),
      reshape4 l = some rows → l.length = 4 * rows.length
  | [], rows => by
    intro h
    simp only [reshape4, Option.some.injEq] at h
    subst h
    simp
  | [a], rows => by intro h; simp [reshape4] at h
  | [a, b], rows => by intro h; simp [reshape4] at h
  | [a, b, c], rows => by intro h; simp [reshape4] at h
  | a :: b :: c :: d :: rest, rows => by
    intro h
    simp only [reshape4, Option.map_eq_some'] at h
    obtain ⟨rows', hr, rfl⟩ := h
    have ih := reshape4_length rest rows' hr
    simp only [List.length_cons, ih]
    ring

/-- `reshape4` succeeds on any list whose length is a multiple of four,
with one row per four entries. -/
theorem reshape4_total :
    ∀ (n : ℕ) (l : List ℚ), l.length = 4 * n →
      ∃ rows, reshape4 l = some rows ∧ rows.length = n
  | 0, l => by
    intro h
    have : l = [] := List.eq_nil_of_length_eq_zero (by omega)
    subst this
    exact ⟨[], rfl, rfl⟩
  | n + 1, l => by
    intro h
    rcases l with _ | ⟨a, _ | ⟨b, _ | ⟨c, _ | ⟨d, rest⟩⟩⟩⟩ <;>
      simp only [List.length_nil, List.length_cons] at h
    · omega
    · omega
    · omega
    · omega
    · have h' : rest.length = 4 * n := by omega
      obtain ⟨rows, hr, hn⟩ := reshape4_total n rest h'
      exact ⟨(a, b, c, d) :: rows, by simp [reshape4, hr], by simp [hn]⟩

/-- On a successfully decoded vector the objective is the negated weighted
sum of the three sub-scores. -/
theorem objective_function_of_some (params : List ℚ) (ps : List Platform)
    (ms : List MovingPlatform)
    (h : create_platform_sequence params = some (ps, ms)) :
    objective_function params =
      -(0.5 * calculate_clearability_score ps ms +
        0.3 * ((calculate_educational_score ms : ℚ) : ℝ) +
        0.2 * ((calculate_variety_score ps ms : ℚ) : ℝ)) := by
  simp only [objective_function, h]

/-- The population variance is nonnegative. -/
theorem np_var_nonneg (l : List ℚ) : 0 ≤ np_var l := by
  unfold np_var
  apply div_nonneg
  · apply List.sum_nonneg
    intro x hx
    simp only [List.mem_map] at hx
    obtain ⟨y, _, rfl⟩ := hx
    positivity
  · positivity

/-- The index loop of the clearability score computes the sum of the pair
contributions over adjacent pairs. -/
theorem clearabilityLoop_eq_sum :
    ∀ l : List Platform, clearabilityLoop l = clearabilitySum l
  | [] => by simp [clearabilityLoop, clearabilitySum]
  | [p] => by simp [clearabilityLoop, clearabilitySum]
  | p1 :: p2 :: rest => by
    have ih := clearabilityLoop_eq_sum (p2 :: rest)
    simp only [clearabilityLoop, ih, clearabilitySum, List.tail_cons,
      List.zip_cons_cons, List.map_cons, List.sum_cons]

/-! ### Claims -/

/-- C1: for every platform list and moving-platform list handed to the
clearability scorer, the score is the sum, over each adjacent pair of the
concatenation `platforms ++ moving_platforms` taken exactly in that list
order, of +100 / +50 / -200 according to the jump-distance thresholds. -/
theorem calculate_clearability_score_eq_pairSum (platforms : List Platform)
    (moving_platforms : List MovingPlatform) :
    calculate_clearability_score platforms moving_platforms =
      clearabilitySum (platforms ++ moving_platforms.map MovingPlatform.toPlatform) :=
  clearabilityLoop_eq_sum _

/-- C2: `calculate_jump_distance` computes `dx = |x2 - x1|` and
`dy = max 0 (y2 - y1)`; when `dy > 0` it returns `dx / sqrt (2 * dy / GRAVITY)`
and when `dy = 0` it returns `dx` unchanged. -/
theorem calculate_jump_distance_formula (x1 y1 x2 y2 : ℝ) :
    (0 < max 0 (y2 - y1) →
      calculate_jump_distance x1 y1 x2 y2 =
        |x2 - x1| / Real.sqrt (2 * max 0 (y2 - y1) / GRAVITY)) ∧
    (max 0 (y2 - y1) = 0 →
      calculate_jump_distance x1 y1 x2 y2 = |x2 - x1|) := by
  constructor
  · intro h
    simp [calculate_jump_distance, h]
  · intro h
    simp [calculate_jump_distance, h]

/-- Witness for C2 at `(0, 0, 3, 1.2)` (an upward jump) — the inner
hypothesis holds and the formula evaluates as stated. -/
theorem calculate_jump_distance_formula_witness :
    0 < max 0 ((1.2 : ℝ) - 0) ∧
      calculate_jump_distance 0 0 3 1.2 =
        |(3 : ℝ) - 0| / Real.sqrt (2 * max 0 ((1.2 : ℝ) - 0) / GRAVITY) :=
  ⟨by norm_num, (calculate_jump_distance_formula 0 0 3 1.2).1 (by norm_num)⟩

/-- C5: the objective function is total; it takes the fixed penalty value
1000 exactly on the vectors whose decoding fails, and on every other vector
it returns the negated weighted score — no failure propagates to the
caller. -/
theorem objective_function_never_propagates (params : List ℚ) :
    (create_platform_sequence params = none ∧ objective_function params = 1000) ∨
    (∃ ps ms, create_platform_sequence params = some (ps, ms) ∧
      objective_function params =
        -(0.5 * calculate_clearability_score ps ms +
          0.3 * ((calculate_educational_score ms : ℚ) : ℝ) +
          0.2 * ((calculate_variety_score ps ms : ℚ) : ℝ))) := by
  cases hc : create_platform_sequence params with
  | none => exact Or.inl ⟨rfl, by simp [objective_function, hc]⟩
  | some pr =>
    obtain ⟨ps, ms⟩ := pr
    exact Or.inr ⟨ps, ms, rfl, objective_function_of_some params ps ms hc⟩

/-- C6: decoding any parameter vector whose length is not `2*6 + 4*3 = 24`
fails (NumPy's `reshape(3, 4)` raises; `none` here). -/
theorem create_platform_sequence_wrong_length (params : List ℚ)
    (h : params.length ≠ 24) : create_platform_sequence params = none := by
  cases hr : reshape4 (params.drop 12) with
  | none => simp [create_platform_sequence, hr]
  | some rows =>
    by_cases h3 : rows.length = 3
    · exfalso
      apply h
      have hlen := reshape4_length _ _ hr
      rw [List.length_drop, h3] at hlen
      omega
    · simp [create_platform_sequence, hr, h3]

/-- Witness for C6 at the empty parameter vector. -/
theorem create_platform_sequence_wrong_length_witness :
    ([] : List ℚ).length ≠ 24 ∧ create_platform_sequence [] = none :=
  ⟨by decide, create_platform_sequence_wrong_length [] (by decide)⟩

/-- C10: for every platform list and non-empty moving-platform list, the
variety score is `min (var ys / 100) 50 + min (var speeds * 100) 30`, each
capped contribution lies in `[0, 50]` resp. `[0, 30]`, and the total lies
in `[0, 80]`. -/
theorem calculate_variety_score_bounds (platforms : List Platform)
    (moving_platforms : List MovingPlatform) (_h : moving_platforms ≠ []) :
    calculate_variety_score platforms moving_platforms =
      min (np_var (platforms.map Platform.y1 ++
        moving_platforms.map MovingPlatform.y1) / 100) 50 +
      min (np_var (moving_platforms.map MovingPlatform.speed) * 100) 30 ∧
    0 ≤ min (np_var (platforms.map Platform.y1 ++
        moving_platforms.map MovingPlatform.y1) / 100) 50 ∧
    0 ≤ min (np_var (moving_platforms.map MovingPlatform.speed) * 100) 30 ∧
    0 ≤ calculate_variety_score platforms moving_platforms ∧
    calculate_variety_score platforms moving_platforms ≤ 80 := by
  have h1 := np_var_nonneg (platforms.map Platform.y1 ++
    moving_platforms.map MovingPlatform.y1)
  have h2 := np_var_nonneg (moving_platforms.map MovingPlatform.speed)
  have hA0 : 0 ≤ min (np_var (platforms.map Platform.y1 ++
      moving_platforms.map MovingPlatform.y1) / 100) 50 :=
    le_min (div_nonneg h1 (by norm_num)) (by norm_num)
  have hA : min (np_var (platforms.map Platform.y1 ++
      moving_platforms.map MovingPlatform.y1) / 100) 50 ≤ 50 :=
    min_le_right _ _
  have hB0 : 0 ≤ min (np_var (moving_platforms.map MovingPlatform.speed) * 100) 30 :=
    le_min (mul_nonneg h2 (by norm_num)) (by norm_num)
  have hB : min (np_var (moving_platforms.map MovingPlatform.speed) * 100) 30 ≤ 30 :=
    min_le_right _ _
  have e : calculate_variety_score platforms moving_platforms =
      min (np_var (platforms.map Platform.y1 ++
        moving_platforms.map MovingPlatform.y1) / 100) 50 +
      min (np_var (moving_platforms.map MovingPlatform.speed) * 100) 30 := rfl
  exact ⟨e, hA0, hB0, by rw [e]; linarith, by rw [e]; linarith⟩

/-- Witness for C10 at the empty static list and one moving platform. -/
theorem calculate_variety_score_bounds_witness :
    ([⟨0, 0, 80, 0, 0, 100, 1, 1⟩] : List MovingPlatform) ≠ [] ∧
    (0 ≤ calculate_variety_score [] [⟨0, 0, 80, 0, 0, 100, 1, 1⟩] ∧
      calculate_variety_score [] [⟨0, 0, 80, 0, 0, 100, 1, 1⟩] ≤ 80) :=
  ⟨List.cons_ne_nil _ _,
    ((calculate_variety_score_bounds [] [⟨0, 0, 80, 0, 0, 100, 1, 1⟩]
      (List.cons_ne_nil _ _)).2.2.2 : _)⟩

/-- C3: on every successfully decoded level the total score is
`0.5 * clearability + 0.3 * educational + 0.2 * variety`, and the value the
objective hands to the search driver is its negation. -/
theorem objective_function_eq_weighted_total (params : List ℚ)
    (ps : List Platform) (ms : List MovingPlatform)
    (h : create_platform_sequence params = some (ps, ms)) :
    objective_function params =
      -(0.5 * calculate_clearability_score ps ms +
        0.3 * ((calculate_educational_score ms : ℚ) : ℝ) +
        0.2 * ((calculate_variety_score ps ms : ℚ) : ℝ)) :=
  objective_function_of_some params ps ms h

/-- A length-24 vector always decodes: `params.drop 12` has exactly 12
entries, so the reshape succeeds with three rows. -/
theorem create_platform_sequence_of_length (params : List ℚ)
    (h : params.length = 24) :
    ∃ ps ms, create_platform_sequence params = some (ps, ms) := by
  obtain ⟨rows, hr, h3⟩ := reshape4_total 3 (params.drop 12)
    (by rw [List.length_drop, h])
  refine ⟨startPlatform :: (((params.take 6).zip ((params.drop 6).take 6)).mergeSort
      (fun a b => decide (a.1 ≤ b.1))).map
      (fun p => Platform.mk p.1 p.2 (p.1 + 100) p.2),
    rows.map movingOfConfig, ?_⟩
  simp [create_platform_sequence, hr, h3]

/-- Witness for C3: a concrete length-24 vector decodes and the objective
on it is the negated weighted total. -/
theorem objective_function_eq_weighted_total_witness :
    ∃ ps ms,
      create_platform_sequence
        [400, 600, 800, 1000, 1200, 1400, 500, 480, 460, 440, 420, 400,
         350, 450, 480, 1, 800, 1400, 500, 1, 1800, 1950, 400, 1] = some (ps, ms) ∧
      objective_function
        [400, 600, 800, 1000, 1200, 1400, 500, 480, 460, 440, 420, 400,
         350, 450, 480, 1, 800, 1400, 500, 1, 1800, 1950, 400, 1] =
        -(0.5 * calculate_clearability_score ps ms +
          0.3 * ((calculate_educational_score ms : ℚ) : ℝ) +
          0.2 * ((calculate_variety_score ps ms : ℚ) : ℝ)) := by
  obtain ⟨ps, ms, h⟩ := create_platform_sequence_of_length
    [400, 600, 800, 1000, 1200, 1400, 500, 480, 460, 440, 420, 400,
     350, 450, 480, 1, 800, 1400, 500, 1, 1800, 1950, 400, 1] rfl
  exact ⟨ps, ms, h, objective_function_eq_weighted_total _ ps ms h⟩

/-- C4: every length-24 vector decodes to the fixed start platform followed
by 6 static platforms sorted ascending by `x1` plus exactly 3 moving
platforms, and the sort permutes the x- and y-slices jointly: the list of
`(x1, y1)` pairs of the static platforms is a permutation of
`params[0:6]` zipped with `params[6:12]`. -/
theorem create_platform_sequence_shape (params : List ℚ)
    (h : params.length = 24) :
    ∃ ps ms, create_platform_sequence params = some (ps, ms) ∧
      ps.length = 7 ∧ ms.length = 3 ∧
      ps.head? = some startPlatform ∧
      ps.tail.Pairwise (fun p q => p.x1 ≤ q.x1) ∧
      (ps.tail.map (fun p => (p.x1, p.y1))).Perm
        ((params.take 6).zip ((params.drop 6).take 6)) := by
  obtain ⟨rows, hr, h3⟩ := reshape4_total 3 (params.drop 12)
    (by rw [List.length_drop, h])
  refine ⟨startPlatform :: (((params.take 6).zip ((params.drop 6).take 6)).mergeSort
      (fun a b => decide (a.1 ≤ b.1))).map
      (fun p => Platform.mk p.1 p.2 (p.1 + 100) p.2),
    rows.map movingOfConfig, ?_, ?_, ?_, rfl, ?_, ?_⟩
  · simp [create_platform_sequence, hr, h3]
  · simp only [List.length_cons, List.length_map, List.length_mergeSort,
      List.length_zip, List.length_take, List.length_drop, h]
    omega
  · simp [h3]
  · rw [List.tail_cons, List.pairwise_map]
    have hs := @List.sorted_mergeSort (ℚ × ℚ)
      (fun a b => decide (a.1 ≤ b.1))
      (fun a b c hab hbc => by
        simp only [decide_eq_true_eq] at *
        exact le_trans hab hbc)
      (fun a b => by
        simp only [Bool.or_eq_true, decide_eq_true_eq]
        exact le_total a.1 b.1)
      ((params.take 6).zip ((params.drop 6).take 6))
    refine hs.imp ?_
    intro a b hab
    simpa using hab
  · rw [List.tail_cons, List.map_map]
    have hid : ((fun p : Platform => (p.x1, p.y1)) ∘
        fun p : ℚ × ℚ => Platform.mk p.1 p.2 (p.1 + 100) p.2) = id := by
      funext p
      cases p
      rfl
    rw [hid, List.map_id]
    exact List.mergeSort_perm _ _

/-- Witness for C4 at a concrete descending-x vector (the sort must act). -/
theorem create_platform_sequence_shape_witness :
    ∃ ps ms,
      create_platform_sequence
        [600, 500, 400, 300, 200, 100, 10, 20, 30, 40, 50, 60,
         1000, 1100, 450, 1, 1200, 1300, 460, 1, 1400, 1500, 470, 1] = some (ps, ms) ∧
      ps.length = 7 ∧ ms.length = 3 ∧
      ps.head? = some startPlatform ∧
      ps.tail.Pairwise (fun p q => p.x1 ≤ q.x1) ∧
      (ps.tail.map (fun p => (p.x1, p.y1))).Perm
        (([600, 500, 400, 300, 200, 100, 10, 20, 30, 40, 50, 60,
           1000, 1100, 450, 1, 1200, 1300, 460, 1, 1400, 1500, 470, 1].take 6).zip
          (([600, 500, 400, 300, 200, 100, 10, 20, 30, 40, 50, 60,
             1000, 1100, 450, 1, 1200, 1300, 460, 1, 1400, 1500, 470, 1].drop 6).take 6)) :=
  create_platform_sequence_shape
    [600, 500, 400, 300, 200, 100, 10, 20, 30, 40, 50, 60,
     1000, 1100, 450, 1, 1200, 1300, 460, 1, 1400, 1500, 470, 1] rfl

/-- C9: every length-24 vector decodes without failure — no bounds are
enforced on the values — and scoring the decoded level succeeds: the
objective takes the normal negated-total path, not the penalty path. -/
theorem create_platform_sequence_unbounded (params : List ℚ)
    (h : params.length = 24) :
    ∃ ps ms, create_platform_sequence params = some (ps, ms) ∧
      objective_function params =
        -(0.5 * calculate_clearability_score ps ms +
          0.3 * ((calculate_educational_score ms : ℚ) : ℝ) +
          0.2 * ((calculate_variety_score ps ms : ℚ) : ℝ)) := by
  obtain ⟨ps, ms, hc⟩ := create_platform_sequence_of_length params h
  exact ⟨ps, ms, hc, objective_function_of_some params ps ms hc⟩

/-- Witness for C9 at a vector far outside the search bounds (every static
x lies above the upper bound 2300). -/
theorem create_platform_sequence_unbounded_witness :
    (2300 : ℚ) < 5000 ∧
    ∃ ps ms,
      create_platform_sequence
        [5000, 4000, 3000, 6000, 7000, 8000, 500, 500, 500, 500, 500, 500,
         100, 200, 300, 1, 400, 500, 300, 1, 600, 700, 300, 1] = some (ps, ms) ∧
      objective_function
        [5000, 4000, 3000, 6000, 7000, 8000, 500, 500, 500, 500, 500, 500,
         100, 200, 300, 1, 400, 500, 300, 1, 600, 700, 300, 1] =
        -(0.5 * calculate_clearability_score ps ms +
          0.3 * ((calculate_educational_score ms : ℚ) : ℝ) +
          0.2 * ((calculate_variety_score ps ms : ℚ) : ℝ)) :=
  ⟨by norm_num,
    create_platform_sequence_unbounded
      [5000, 4000, 3000, 6000, 7000, 8000, 500, 500, 500, 500, 500, 500,
       100, 200, 300, 1, 400, 500, 300, 1, 600, 700, 300, 1] rfl⟩

/-- The upward-jump case: with `x1 ≠ x2`, `y1 < y2` and the climb different
from `GRAVITY / 2`, the time factor differs from 1 and dividing by it moves
the value. -/
theorem calculate_jump_distance_up_ne (x1 x2 y1 y2 : ℝ) (hx : x1 ≠ x2)
    (hlt : y1 < y2) (hg : y2 - y1 ≠ GRAVITY / 2) :
    calculate_jump_distance x1 y1 x2 y2 ≠ calculate_jump_distance x1 y2 x2 y1 := by
  have hdy : (0 : ℝ) < y2 - y1 := sub_pos.mpr hlt
  have hmaxup : max (0 : ℝ) (y2 - y1) = y2 - y1 := max_eq_right hdy.le
  have hmaxdown : max (0 : ℝ) (y1 - y2) = 0 := max_eq_left (by linarith)
  have hdx : (0 : ℝ) < |x2 - x1| := abs_pos.mpr (sub_ne_zero.mpr (Ne.symm hx))
  have hG : (0 : ℝ) < GRAVITY := by norm_num [GRAVITY]
  have harg : (0 : ℝ) < 2 * (y2 - y1) / GRAVITY := by positivity
  have hs : (0 : ℝ) < Real.sqrt (2 * (y2 - y1) / GRAVITY) := Real.sqrt_pos.mpr harg
  have hs1 : Real.sqrt (2 * (y2 - y1) / GRAVITY) ≠ 1 := by
    intro h1
    have harg1 : 2 * (y2 - y1) / GRAVITY = 1 := Real.sqrt_eq_one.mp h1
    apply hg
    field_simp at harg1
    linarith
  have e1 : calculate_jump_distance x1 y1 x2 y2 =
      |x2 - x1| / Real.sqrt (2 * (y2 - y1) / GRAVITY) := by
    simp only [calculate_jump_distance, hmaxup]
    rw [if_pos hdy, if_pos hdy]
  have e2 : calculate_jump_distance x1 y2 x2 y1 = |x2 - x1| := by
    simp only [calculate_jump_distance, hmaxdown]
    rw [if_neg (lt_irrefl 0)]
  rw [e1, e2]
  intro heq
  have hmul : |x2 - x1| = |x2 - x1| * Real.sqrt (2 * (y2 - y1) / GRAVITY) :=
    (div_eq_iff hs.ne').mp heq
  have hss : |x2 - x1| * Real.sqrt (2 * (y2 - y1) / GRAVITY) = |x2 - x1| * 1 := by
    rw [mul_one]
    exact hmul.symm
  exact hs1 (mul_left_cancel₀ hdx.ne' hss)

/-- C8 counterexample: the claim fails as stated — at
`x1 = 0, y1 = 0, x2 = 1, y2 = 3/10` the climb equals `GRAVITY / 2`, the time
factor is `sqrt 1 = 1`, and swapping the unequal heights leaves the result
unchanged (both sides equal 1). -/
theorem calculate_jump_distance_swap_counterexample :
    ∃ x1 y1 x2 y2 : ℝ, y1 ≠ y2 ∧
      calculate_jump_distance x1 y1 x2 y2 = calculate_jump_distance x1 y2 x2 y1 := by
  refine ⟨0, 0, 1, 3 / 10, by norm_num, ?_⟩
  have e1 : calculate_jump_distance 0 0 1 (3 / 10) = 1 := by
    have hmax : max (0 : ℝ) (3 / 10 - 0) = 3 / 10 := by norm_num
    have harg : 2 * ((3 : ℝ) / 10) / GRAVITY = 1 := by norm_num [GRAVITY]
    simp only [calculate_jump_distance, hmax]
    rw [if_pos (by norm_num : (0 : ℝ) < 3 / 10),
      if_pos (by norm_num : (0 : ℝ) < 3 / 10), harg, Real.sqrt_one]
    norm_num
  have e2 : calculate_jump_distance 0 (3 / 10) 1 0 = 1 := by
    have hmax : max (0 : ℝ) (0 - 3 / 10) = 0 := by norm_num
    simp only [calculate_jump_distance, hmax]
    rw [if_neg (lt_irrefl 0)]
    norm_num
  rw [e1, e2]

/-- C8 (amended): swapping the two heights changes the value of
`calculate_jump_distance` whenever the horizontal positions differ and the
height difference is not exactly `GRAVITY / 2` (at `|y2 - y1| = GRAVITY / 2`
the time factor is 1 and the two orientations coincide; at `x1 = x2` both
values are 0). -/
theorem calculate_jump_distance_swap_ne (x1 y1 x2 y2 : ℝ) (hx : x1 ≠ x2)
    (hy : y1 ≠ y2) (hg : |y2 - y1| ≠ GRAVITY / 2) :
    calculate_jump_distance x1 y1 x2 y2 ≠ calculate_jump_distance x1 y2 x2 y1 := by
  rcases lt_or_gt_of_ne hy with hlt | hgt
  · refine calculate_jump_distance_up_ne x1 x2 y1 y2 hx hlt ?_
    rwa [abs_of_pos (sub_pos.mpr hlt)] at hg
  · refine (calculate_jump_distance_up_ne x1 x2 y2 y1 hx hgt ?_).symm
    rw [abs_sub_comm] at hg
    rwa [abs_of_pos (sub_pos.mpr hgt)] at hg

/-- Witness for C8 (amended) at `(0, 0, 1, 1)`: a climb of 1 differs from
`GRAVITY / 2 = 0.3`, and the swapped values indeed differ. -/
theorem calculate_jump_distance_swap_ne_witness :
    (0 : ℝ) ≠ 1 ∧ |(1 : ℝ) - 0| ≠ GRAVITY / 2 ∧
      calculate_jump_distance 0 0 1 1 ≠ calculate_jump_distance 0 1 1 0 :=
  ⟨zero_ne_one, by norm_num [GRAVITY],
    calculate_jump_distance_swap_ne 0 0 1 1 zero_ne_one zero_ne_one
      (by norm_num [GRAVITY])⟩

/-- C7 counterexample: a failure result returned by `optimize` carries no
best-found level and no score — the Python failure dict has only the keys
`success` and `message`. -/
theorem optimize_failure_counterexample :
    ∃ (r : MinimizeResult) (res : OptimizationResult),
      optimize r = some res ∧ res.success = false ∧
      res.platforms = none ∧ res.moving_platforms = none ∧ res.score = none :=
  ⟨⟨[], 0, false, "Iteration limit reached"⟩,
    ⟨false, none, none, none, "Optimization failed: Iteration limit reached"⟩,
    rfl, rfl, rfl, rfl, rfl⟩

/-- C7 (amended): a success result carries the success flag, the decoded
level, the score `-result.fun` and a success message, while a failure
result carries only the failure flag and the solver's diagnostic message —
no level and no score. -/
theorem optimize_result_shape (r : MinimizeResult) :
    (r.success = true → ∀ ps ms, create_platform_sequence r.x = some (ps, ms) →
      optimize r = some ⟨true, some ps, some ms, some (-r.fval),
        "Optimization successful"⟩) ∧
    (r.success = false →
      optimize r = some ⟨false, none, none, none,
        "Optimization failed: " ++ r.message⟩) := by
  constructor
  · intro hs ps ms hc
    simp [optimize, hs, hc]
  · intro hs
    simp [optimize, hs]

/-- Witness for C7 (amended) on a concrete failed solver result. -/
theorem optimize_result_shape_witness :
    (MinimizeResult.success ⟨[], 0, false, "max iterations"⟩ = false) ∧
    optimize ⟨[], 0, false, "max iterations"⟩ =
      some ⟨false, none, none, none, "Optimization failed: max iterations"⟩ :=
  ⟨rfl, (optimize_result_shape ⟨[], 0, false, "max iterations"⟩).2 rfl⟩

end Stage2
